import Mathlib

/-!
Shallow embedding of the realestate-crm admin front-end
(`src/components/dashboard/PropertiesManager.tsx`, the plots manager, the
`useAuth` hook and the `AuthGuard` component).  Network effects (supabase
table calls and storage calls) are embedded as explicit event traces; the
outcomes of the external collaborators (backend success, storage-delete
success, upload results) are passed in as parameters, matching the `await`
points and `try`/`catch` structure of the handlers.
-/

namespace RealestateCRM

/-- A JavaScript number as produced by `parseFloat`: either NaN or a value
(modelled as a rational; every float the UI meets is a decimal literal). -/
inductive JSNum where
  | nan
  | num (q : ℚ)
deriving DecidableEq

/-- Longest prefix of decimal digits of a character list, as digit values,
plus the remaining characters. -/
def takeDigits : List Char → List ℕ × List Char
  | [] => ([], [])
  | c :: cs =>
    if c.isDigit then
      let p := takeDigits cs
      ((c.toNat - 48) :: p.1, p.2)
    else ([], c :: cs)

/-- Value of a most-significant-first digit list. -/
def natOfDigits (ds : List ℕ) : ℕ := ds.foldl (fun a d => 10 * a + d) 0

/-- JavaScript `parseFloat`: skip leading whitespace, optional sign, longest
numeric prefix `digits [. digits] [e|E [sign] digits]`; NaN when no digit is
found before the exponent part. -/
def parseFloat (s : String) : JSNum :=
  let cs0 := s.toList.dropWhile (fun c => c.isWhitespace)
  let signRest : ℚ × List Char :=
    match cs0 with
    | '-' :: rest => (-1, rest)
    | '+' :: rest => (1, rest)
    | _ => (1, cs0)
  let p1 := takeDigits signRest.2
  let fracRest : List ℕ × List Char :=
    match p1.2 with
    | '.' :: rest => takeDigits rest
    | _ => ([], p1.2)
  if p1.1.isEmpty && fracRest.1.isEmpty then JSNum.nan
  else
    let mantissa : ℚ :=
      signRest.1 * ((natOfDigits p1.1 : ℚ) + (natOfDigits fracRest.1 : ℚ) / 10 ^ fracRest.1.length)
    let expPart : ℤ :=
      match fracRest.2 with
      | 'e' :: rest | 'E' :: rest =>
        let es : ℤ × List Char :=
          match rest with
          | '-' :: r2 => (-1, r2)
          | '+' :: r2 => (1, r2)
          | _ => (1, rest)
        let p2 := takeDigits es.2
        if p2.1.isEmpty then 0 else es.1 * natOfDigits p2.1
      | _ => 0
    if 0 ≤ expPart then JSNum.num (mantissa * 10 ^ expPart.toNat)
    else JSNum.num (mantissa / 10 ^ (-expPart).toNat)

/-- The `Property` interface of `PropertiesManager.tsx`. -/
structure Property where
  id : String
  builder_name : String
  project : String
  location : String
  size : String
  price : JSNum
  images : List String
deriving DecidableEq

/-- The `Plot` interface of the plots manager. -/
structure Plot where
  id : String
  builder_name : String
  project : String
  location : String
  price_per_sqft : JSNum
  total_price : JSNum
  images : List String
deriving DecidableEq

/-- A payload sent with an insert or update call.  A field that the call does
not mention is `none` (supabase partial update semantics). -/
structure UpdatePayload where
  builder_name : Option String := none
  project : Option String := none
  location : Option String := none
  size : Option String := none
  price : Option JSNum := none
  price_per_sqft : Option JSNum := none
  total_price : Option JSNum := none
  images : Option (List String) := none
deriving DecidableEq

/-- One outgoing network call of a handler, in issue order. -/
inductive Event where
  | insert (table : String) (payload : UpdatePayload)
  | update (table : String) (payload : UpdatePayload) (id : String)
  | recordDelete (table : String) (id : String)
  | select (table : String) (orderField : String) (ascending : Bool)
  | storageUpload (bucket : String) (path : String)
  | storageDelete (bucket : String) (url : String)
deriving DecidableEq

def Event.isStorageUpload : Event → Bool
  | .storageUpload _ _ => true
  | _ => false

def Event.isRecordUpdate : Event → Bool
  | .update _ _ _ => true
  | _ => false

/-- The `propertyData` object built in `PropertiesManager.handleSubmit`
(lines 58-65): raw form strings, `price` via `parseFloat`, images from the
draft being edited or `[]`. -/
def propertyData (builder project location size priceStr : String)
    (editingProperty : Option Property) : UpdatePayload :=
  { builder_name := some builder
    project := some project
    location := some location
    size := some size
    price := some (parseFloat priceStr)
    images := some (match editingProperty with
      | some p => p.images
      | none => []) }

/-- `PropertiesManager.handleSubmit` (lines 51-89): build `propertyData`
unconditionally (no numeric validation), then update-by-id when editing or
insert when creating; on backend success refetch the list ordered by
`created_at` descending (`fetchProperties`, lines 35-49). -/
def handleSubmit (type_ builder project location size priceStr : String)
    (editingProperty : Option Property) (backendOk : Bool) : List Event :=
  let tableName := type_ ++ "_properties"
  let payload := propertyData builder project location size priceStr editingProperty
  (match editingProperty with
   | some p => Event.update tableName payload p.id
   | none => Event.insert tableName payload) ::
  (if backendOk then [Event.select tableName "created_at" false] else [])

/-- The `plotData` object of the plots manager's `handleSubmit`
(part_001 lines 52-59). -/
def plotData (builder project location ppsStr tpStr : String)
    (editingPlot : Option Plot) : UpdatePayload :=
  { builder_name := some builder
    project := some project
    location := some location
    price_per_sqft := some (parseFloat ppsStr)
    total_price := some (parseFloat tpStr)
    images := some (match editingPlot with
      | some p => p.images
      | none => []) }

/-- The plots manager's `handleSubmit` (part_001 lines 45-83), table `plots`. -/
def plotsHandleSubmit (builder project location ppsStr tpStr : String)
    (editingPlot : Option Plot) (backendOk : Bool) : List Event :=
  let payload := plotData builder project location ppsStr tpStr editingPlot
  (match editingPlot with
   | some p => Event.update "plots" payload p.id
   | none => Event.insert "plots" payload) ::
  (if backendOk then [Event.select "plots" "created_at" false] else [])

/-- The payload object `{ images: updatedImages }` of the image-mutation
handlers: only the `images` field is present. -/
def imagesOnlyPayload (l : List String) : UpdatePayload := { images := some l }

/-- `const updatedImages = [...editingProperty.images, ...urls]`
(PropertiesManager line 100, part_001 line 94): plain append, no
de-duplication. -/
def imageAddImages (existing urls : List String) : List String := existing ++ urls

/-- `editingProperty.images.filter(img => img !== url)`
(PropertiesManager line 118, part_001 line 112). -/
def imageRemoveImages (images : List String) (url : String) : List String :=
  images.filter (fun img => img != url)

/-- `handleImageUpload` (PropertiesManager lines 91-111; part_001 lines
85-105 is identical up to the table/bucket/path constants).  All upload
calls are initiated by the `map` before `Promise.all` is awaited; when the
batch succeeds and a draft with a persisted id is open, exactly one update
carrying only the appended images list is issued immediately.  The draft is
`some (id, images)`; `urls` are the storage collaborator's responses, one
per selected file. -/
def handleImageUpload (tableName bucket path : String)
    (editing : Option (String × List String)) (urls : List String)
    (uploadsOk : Bool) : List Event :=
  (urls.map (fun _ => Event.storageUpload bucket path)) ++
  (if uploadsOk then
    match editing with
    | some ed => [Event.update tableName (imagesOnlyPayload (imageAddImages ed.2 urls)) ed.1]
    | none => []
   else [])

/-- `handleImageDelete` (PropertiesManager lines 113-129; part_001 lines
107-123): `await deleteImage(bucket, url)` first; only if it does not throw
and a draft is open is the update with the filtered images list issued. -/
def handleImageDelete (tableName bucket : String)
    (editing : Option (String × List String)) (storageDeleteOk : Bool)
    (url : String) : List Event :=
  Event.storageDelete bucket url ::
  (if storageDeleteOk then
    match editing with
    | some ed => [Event.update tableName (imagesOnlyPayload (imageRemoveImages ed.2 url)) ed.1]
    | none => []
   else [])

/-- `handleDelete` (PropertiesManager lines 131-152; part_001 lines
125-146): confirmation gate; find the record in the local list (a miss makes
`property.images` throw, caught with no call issued); issue a storage delete
for every image via `Promise.all`; only if all succeed, delete the record;
on record-delete success, refetch.  Records carry `(id, images)`;
`storageDeleteOutcome` is the collaborator's per-URL result. -/
def handleDelete (tableName bucket : String)
    (records : List (String × List String)) (confirmed : Bool)
    (storageDeleteOutcome : String → Bool) (recordDeleteOk : Bool)
    (id : String) : List Event :=
  if confirmed then
    match records.find? (fun r => r.1 == id) with
    | none => []
    | some r =>
      (r.2.map (fun url => Event.storageDelete bucket url)) ++
      (if r.2.all storageDeleteOutcome then
        Event.recordDelete tableName id ::
          (if recordDeleteOk then [Event.select tableName "created_at" false] else [])
       else [])
  else []

/-- `PropertiesManager.handleImageUpload` instantiation: bucket
`properties`, path `type/id-or-new`, table `type_properties`. -/
def propertiesImageUpload (type_ : String) (editingProperty : Option Property)
    (urls : List String) (uploadsOk : Bool) : List Event :=
  handleImageUpload (type_ ++ "_properties") "properties"
    (type_ ++ "/" ++ (match editingProperty with | some p => p.id | none => "new"))
    (editingProperty.map fun p => (p.id, p.images)) urls uploadsOk

/-- Plots manager `handleImageUpload` instantiation: bucket `plots`, path
`id-or-new`, table `plots`. -/
def plotsImageUpload (editingPlot : Option Plot)
    (urls : List String) (uploadsOk : Bool) : List Event :=
  handleImageUpload "plots" "plots"
    (match editingPlot with | some p => p.id | none => "new")
    (editingPlot.map fun p => (p.id, p.images)) urls uploadsOk

/-- `PropertiesManager.handleImageDelete` instantiation. -/
def propertiesImageDelete (type_ : String) (editingProperty : Option Property)
    (storageDeleteOk : Bool) (url : String) : List Event :=
  handleImageDelete (type_ ++ "_properties") "properties"
    (editingProperty.map fun p => (p.id, p.images)) storageDeleteOk url

/-- Plots manager `handleImageDelete` instantiation. -/
def plotsImageDelete (editingPlot : Option Plot)
    (storageDeleteOk : Bool) (url : String) : List Event :=
  handleImageDelete "plots" "plots"
    (editingPlot.map fun p => (p.id, p.images)) storageDeleteOk url

/-- Modelled from the spec: `deleteImage` lives in `src/utils/imageUpload`,
which is not among the provided sources; per the spec's Media Attachment
Service contract, `remove(namespace, URL)` deletes the stored object and is
idempotent — removing an already-absent object is not a fatal error, so the
call reports success whether or not the URL is present in storage, and the
storage state drops the URL. -/
def deleteImageSpec (storage : List String) (url : String) : Bool × List String :=
  (true, storage.filter (fun u => u != url))

/-- The `useAuth` state (`authState` in the hook). -/
structure AuthState where
  user : Option String
  loading : Bool
  initialized : Bool
  error : Option String
deriving DecidableEq

/-- The hook's initial state: no user, loading, uninitialized, no error. -/
def initialAuthState : AuthState :=
  { user := none, loading := true, initialized := false, error := none }

/-- `getInitialSession` success: `{user, loading:false, initialized:true, error:null}`. -/
def fetchResolve (u : Option String) (_s : AuthState) : AuthState :=
  { user := u, loading := false, initialized := true, error := none }

/-- `getInitialSession` failure: null user, not loading, initialized, error set. -/
def fetchReject (e : String) (_s : AuthState) : AuthState :=
  { user := none, loading := false, initialized := true, error := some e }

/-- The `onAuthStateChange` callback: overwrite `user` with the session's
user (or null), force `loading:false` and `initialized:true`, keep the rest. -/
def authChange (sessionUser : Option String) (s : AuthState) : AuthState :=
  { s with user := sessionUser, loading := false, initialized := true }

/-- What `useAuth` returns to consumers. -/
structure AuthView where
  user : Option String
  loading : Bool
  error : Option String
  isInitialized : Bool
deriving DecidableEq

/-- The hook's return value: the user is only surfaced once initialized
(`user: authState.initialized ? authState.user : null`). -/
def useAuthView (s : AuthState) : AuthView :=
  { user := if s.initialized then s.user else none
    loading := s.loading
    error := s.error
    isInitialized := s.initialized }

/-- What the `AuthGuard` component renders. -/
inductive GuardRender where
  | placeholder
  | protectedSubtree
  | nothing
deriving DecidableEq

/-- One `AuthGuard` evaluation: whether it navigates to `/login` and what it
renders. -/
structure GuardOutput where
  render : GuardRender
  navigatesToLogin : Bool
deriving DecidableEq

/-- `AuthGuard` (part_000 lines 13-27): the effect navigates exactly when
`!loading && !user && !isInitialized`; the render is the spinner while
loading, else the children when a user is present, else null. -/
def authGuard (v : AuthView) : GuardOutput :=
  { navigatesToLogin := !v.loading && v.user.isNone && !v.isInitialized
    render :=
      if v.loading then GuardRender.placeholder
      else match v.user with
        | some _ => GuardRender.protectedSubtree
        | none => GuardRender.nothing }

theorem list_all_trivial {α : Type} (l : List α) : l.all (fun _ => true) = true := by
  induction l with
  | nil => rfl
  | cons a as ih => simp [List.all_cons, ih]

/-- C1: the claim says a non-parsing numeric field is rejected locally with
no backend call; the code instead computes `parseFloat` without validation
and issues the insert carrying NaN.  Evaluated at a create submission with
price `"abc"` (properties) and price-per-sqft `"abc"` (plots): both traces
start with an insert whose numeric field is NaN. -/
theorem handleSubmit_nonnumeric_price_reaches_backend :
    parseFloat "abc" = JSNum.nan
    ∧ handleSubmit "resale" "Acme" "Skyview" "Lakeview" "2400 sqft" "abc" none true
        = [Event.insert "resale_properties"
            { builder_name := some "Acme", project := some "Skyview",
              location := some "Lakeview", size := some "2400 sqft",
              price := some JSNum.nan, images := some [] },
           Event.select "resale_properties" "created_at" false]
    ∧ plotsHandleSubmit "Acme" "Skyview" "Lakeview" "abc" "4500000" none true
        = [Event.insert "plots"
            { builder_name := some "Acme", project := some "Skyview",
              location := some "Lakeview",
              price_per_sqft := some JSNum.nan,
              total_price := some (JSNum.num 4500000), images := some [] },
           Event.select "plots" "created_at" false] := by
  refine ⟨by decide, by decide, ?_⟩
  simp [plotsHandleSubmit, plotData, parseFloat, takeDigits, natOfDigits]

/-- C2: with loading false, no user and isInitialized true the guard issues
no redirect and renders nothing; while loading it renders the placeholder
and never navigates; once not loading, a present user renders the protected
subtree with no navigation; and the redirect flag is never set while
isInitialized is true. -/
theorem authGuard_behavior (u e : Option String) (x : String) (b : Bool) :
    authGuard { user := none, loading := false, error := e, isInitialized := true }
        = { render := GuardRender.nothing, navigatesToLogin := false }
    ∧ authGuard { user := u, loading := true, error := e, isInitialized := b }
        = { render := GuardRender.placeholder, navigatesToLogin := false }
    ∧ authGuard { user := some x, loading := false, error := e, isInitialized := b }
        = { render := GuardRender.protectedSubtree, navigatesToLogin := false }
    ∧ (authGuard { user := u, loading := false, error := e, isInitialized := true }).navigatesToLogin
        = false := by
  refine ⟨rfl, ?_, ?_, ?_⟩ <;> simp [authGuard]

/-- C3: an image-remove issues the storage delete of the URL strictly before
the single record update, whose images list omits the URL; if the storage
delete fails, no update is issued at all. -/
theorem handleImageDelete_delete_then_persist (t b id url : String)
    (images : List String) :
    handleImageDelete t b (some (id, images)) true url
        = [Event.storageDelete b url,
           Event.update t (imagesOnlyPayload (imageRemoveImages images url)) id]
    ∧ handleImageDelete t b (some (id, images)) false url
        = [Event.storageDelete b url]
    ∧ url ∉ imageRemoveImages images url := by
  refine ⟨rfl, rfl, ?_⟩
  simp [imageRemoveImages]

/-- C7: in any state of the session provider whose `initialized` flag is
false, the exposed view's user is null, even when an identity is already
held internally; in particular the initial state exposes null. -/
theorem useAuthView_user_requires_init (u : Option String) (l : Bool)
    (e : Option String) :
    (useAuthView { user := u, loading := l, initialized := false, error := e }).user = none
    ∧ (useAuthView initialAuthState).user = none := by
  exact ⟨rfl, rfl⟩

/-- C4: a confirmed deletion of a record present in the list issues one
storage delete per image URL, all of them before the record delete, and on
record-delete success a refetch ordered by creation time descending. -/
theorem handleDelete_cascade_order (t b id : String)
    (records : List (String × List String)) (r : String × List String)
    (h : records.find? (fun x => x.1 == id) = some r) :
    handleDelete t b records true (fun _ => true) true id
      = (r.2.map (fun url => Event.storageDelete b url))
        ++ [Event.recordDelete t id, Event.select t "created_at" false] := by
  simp [handleDelete, h, list_all_trivial]

/-- Witness for C4 at a concrete record with two images. -/
theorem handleDelete_cascade_order_witness :
    handleDelete "plots" "plots" [("r1", ["u1", "u2"])] true (fun _ => true) true "r1"
      = [Event.storageDelete "plots" "u1", Event.storageDelete "plots" "u2",
         Event.recordDelete "plots" "r1", Event.select "plots" "created_at" false] := by
  have h := handleDelete_cascade_order "plots" "plots" "r1"
    [("r1", ["u1", "u2"])] ("r1", ["u1", "u2"]) (by decide)
  simpa using h

theorem countP_replicate_of_true {α : Type} (p : α → Bool) (a : α)
    (h : p a = true) (n : ℕ) : (List.replicate n a).countP p = n := by
  induction n with
  | zero => rfl
  | succ m ih => simp [List.replicate_succ, List.countP_cons, h, ih]

/-- C5: an image-add of n files to a draft with a persisted id issues
exactly n upload calls followed by exactly one update whose images field is
the existing sequence with the n returned URLs appended, within the same
handler (not deferred to form submit). -/
theorem handleImageUpload_exact_calls (t b path id : String)
    (images urls : List String) :
    handleImageUpload t b path (some (id, images)) urls true
      = (urls.map (fun _ => Event.storageUpload b path))
        ++ [Event.update t (imagesOnlyPayload (imageAddImages images urls)) id]
    ∧ (handleImageUpload t b path (some (id, images)) urls true).countP
        Event.isStorageUpload = urls.length
    ∧ (handleImageUpload t b path (some (id, images)) urls true).countP
        Event.isRecordUpdate = 1
    ∧ imageAddImages images urls = images ++ urls := by
  refine ⟨rfl, ?_, ?_, rfl⟩ <;>
    simp [handleImageUpload, List.countP_append, List.countP_map,
      Function.comp_def, Event.isStorageUpload, Event.isRecordUpdate,
      List.countP_cons, List.countP_nil,
      countP_replicate_of_true Event.isStorageUpload (Event.storageUpload b path) rfl]

/-- C6: with the storage delete modelled from the spec (idempotent: an
already-absent URL is not a fatal error), a confirmed deletion of a record
one of whose image URLs is absent from storage still issues the record
delete, and the storage delete for that URL is still triggered. -/
theorem handleDelete_idempotent_remove (t b id u : String)
    (storage : List String) (records : List (String × List String))
    (r : String × List String) (recordDeleteOk : Bool)
    (hfind : records.find? (fun x => x.1 == id) = some r)
    (hmem : u ∈ r.2) (_habsent : u ∉ storage) :
    Event.recordDelete t id ∈
      handleDelete t b records true (fun url => (deleteImageSpec storage url).1)
        recordDeleteOk id
    ∧ Event.storageDelete b u ∈
      handleDelete t b records true (fun url => (deleteImageSpec storage url).1)
        recordDeleteOk id := by
  constructor
  · simp [handleDelete, hfind, deleteImageSpec, list_all_trivial]
  · simp only [handleDelete, hfind, if_pos rfl]
    exact List.mem_append_left _ (List.mem_map_of_mem _ hmem)

/-- Witness for C6: record `r1` owns `u1`, storage no longer holds `u1`. -/
theorem handleDelete_idempotent_remove_witness :
    Event.recordDelete "plots" "r1" ∈
      handleDelete "plots" "plots" [("r1", ["u1"])] true
        (fun url => (deleteImageSpec [] url).1) true "r1"
    ∧ Event.storageDelete "plots" "u1" ∈
      handleDelete "plots" "plots" [("r1", ["u1"])] true
        (fun url => (deleteImageSpec [] url).1) true "r1" :=
  handleDelete_idempotent_remove "plots" "plots" "r1" "u1" [] [("r1", ["u1"])]
    ("r1", ["u1"]) true (by decide) (by decide) (by decide)

/-- C8: a valid create submission (price parses as the number q) issues
exactly one insert, carrying the parsed number, followed by the full refetch
ordered by `created_at` descending. -/
theorem handleSubmit_create_roundtrip (type_ builder project location size priceStr : String)
    (q : ℚ) (h : parseFloat priceStr = JSNum.num q) :
    handleSubmit type_ builder project location size priceStr none true
      = [Event.insert (type_ ++ "_properties")
          { builder_name := some builder, project := some project,
            location := some location, size := some size,
            price := some (JSNum.num q), images := some [] },
         Event.select (type_ ++ "_properties") "created_at" false] := by
  simp [handleSubmit, propertyData, h]

/-- Witness for C8 at the spec's example input: price `"1000000"` parses as
the number 1000000 and the create round-trip holds there. -/
theorem handleSubmit_create_roundtrip_witness :
    parseFloat "1000000" = JSNum.num 1000000
    ∧ handleSubmit "resale" "Acme" "Skyview" "Lakeview" "2400 sqft" "1000000" none true
        = [Event.insert "resale_properties"
            { builder_name := some "Acme", project := some "Skyview",
              location := some "Lakeview", size := some "2400 sqft",
              price := some (JSNum.num 1000000), images := some [] },
           Event.select "resale_properties" "created_at" false] :=
  ⟨by simp [parseFloat, takeDigits, natOfDigits],
   handleSubmit_create_roundtrip "resale" "Acme" "Skyview" "Lakeview" "2400 sqft"
     "1000000" 1000000 (by simp [parseFloat, takeDigits, natOfDigits])⟩

/-- C9 counterexample: the image-add construction is a plain append, so an
upload result equal to an already-present URL produces a duplicate: from the
duplicate-free sequence `["u1"]`, adding upload result `["u1"]` yields
`["u1", "u1"]`, which has a duplicate. -/
theorem imageAdd_dedup_counterexample :
    imageAddImages ["u1"] ["u1"] = ["u1", "u1"]
    ∧ (["u1"] : List String).Nodup
    ∧ ¬ (imageAddImages ["u1"] ["u1"]).Nodup := by
  refine ⟨rfl, by decide, by decide⟩

/-- C9 amended: appending upload results keeps the images sequence
duplicate-free provided the returned URLs are fresh — pairwise distinct and
not already present; the code itself performs no de-duplication. -/
theorem imageAdd_nodup_of_fresh (images urls : List String)
    (h1 : images.Nodup) (h2 : urls.Nodup) (h3 : ∀ u ∈ urls, u ∉ images) :
    (imageAddImages images urls).Nodup := by
  rw [imageAddImages, List.nodup_append]
  exact ⟨h1, h2, fun a ha hb => h3 a hb ha⟩

/-- Witness for the amended C9 at concrete fresh URLs. -/
theorem imageAdd_nodup_of_fresh_witness :
    (["u1"] : List String).Nodup
    ∧ (["u2", "u3"] : List String).Nodup
    ∧ (∀ u ∈ (["u2", "u3"] : List String), u ∉ (["u1"] : List String))
    ∧ (imageAddImages ["u1"] ["u2", "u3"]).Nodup :=
  ⟨by decide, by decide, by decide,
   imageAdd_nodup_of_fresh ["u1"] ["u2", "u3"] (by decide) (by decide) (by decide)⟩

theorem filter_isRecordUpdate_map_storageUpload (b path : String)
    (urls : List String) :
    (urls.map (fun _ => Event.storageUpload b path)).filter Event.isRecordUpdate
      = [] := by
  induction urls with
  | nil => rfl
  | cons u us ih => simp [Event.isRecordUpdate, ih]

/-- C10: the record updates issued by an image-add and an image-remove carry
a payload whose only present field is `images`; every other record field is
absent from the call, hence left unchanged. -/
theorem imageMutation_frame (t b path id url : String)
    (images urls : List String) :
    (handleImageUpload t b path (some (id, images)) urls true).filter
        Event.isRecordUpdate
      = [Event.update t (imagesOnlyPayload (imageAddImages images urls)) id]
    ∧ (handleImageDelete t b (some (id, images)) true url).filter
        Event.isRecordUpdate
      = [Event.update t (imagesOnlyPayload (imageRemoveImages images url)) id]
    ∧ (∀ l : List String,
        (imagesOnlyPayload l).builder_name = none
        ∧ (imagesOnlyPayload l).project = none
        ∧ (imagesOnlyPayload l).location = none
        ∧ (imagesOnlyPayload l).size = none
        ∧ (imagesOnlyPayload l).price = none
        ∧ (imagesOnlyPayload l).price_per_sqft = none
        ∧ (imagesOnlyPayload l).total_price = none
        ∧ (imagesOnlyPayload l).images = some l) := by
  refine ⟨?_, ?_, fun l => ⟨rfl, rfl, rfl, rfl, rfl, rfl, rfl, rfl⟩⟩
  · simp [handleImageUpload, List.filter_append,
      filter_isRecordUpdate_map_storageUpload, Event.isRecordUpdate]
  · simp [handleImageDelete, Event.isRecordUpdate]

end RealestateCRM
